import Mathlib

/-!
Shallow embedding of the real-time voice session subsystem of the ECOS
application: the two client voice components (`VoiceChat` and `VoiceCommand`),
the transcript deduplication of `PatientSimulator`, and the server credential
endpoint `POST /api/rtc-token`.

Conventions of the embedding:
* nullable React refs become `Bool` fields (`true` = the ref currently holds an
  object);
* asynchronous fallible steps (credential fetch, microphone acquisition, SDP
  exchange) become explicit outcome parameters;
* side effects on browser objects become an explicit trace (`List StartAct`,
  `List ReleaseAct`) emitted in program order;
* timestamps (`Date.getTime()` milliseconds) are `Int`.
-/

namespace ECOS

/-- The `VoiceChatState` union type of `VoiceChat.tsx`. -/
inductive VoiceChatState where
  | idle
  | connecting
  | connected
  | speaking
  | listening
  | error
deriving DecidableEq, Repr

/-- The string `status` values used by `VoiceCommand` (part_001). -/
inductive VoiceStatus where
  | idle
  | connecting
  | connected
  | error
deriving DecidableEq, Repr

/-- One entry of the `transcript` state array of `VoiceChat.tsx`:
`{text, isUser, timestamp}`. -/
structure TranscriptEntry where
  text : String
  isUser : Bool
  timestamp : Int
deriving DecidableEq, Repr

/-- The mutable state of the `VoiceChat` component: the `state` value, the
`error` value, the `transcript` array, and the nullable refs
(`peerConnectionRef`, `localStreamRef`, `audioOutputRef`, `dataChannelRef`),
each ref modelled as a `Bool` saying whether it currently holds an object. -/
structure VoiceChatSt where
  state : VoiceChatState
  errorMsg : Option String
  transcript : List TranscriptEntry
  peerConnection : Bool
  localStream : Bool
  audioOutput : Bool
  dataChannel : Bool
deriving DecidableEq, Repr

/-- The initial `VoiceChat` component state. -/
def initVoiceChat : VoiceChatSt :=
  { state := .idle, errorMsg := none, transcript := [],
    peerConnection := false, localStream := false,
    audioOutput := false, dataChannel := false }

/-- The mutable state of the `VoiceCommand` component (part_001): `status`,
`isActive`, and the nullable refs `pcRef`, `micStreamRef`, `dcRef`. -/
structure VoiceCommandSt where
  status : VoiceStatus
  isActive : Bool
  pcRef : Bool
  micStreamRef : Bool
  dcRef : Bool
deriving DecidableEq, Repr

/-- The initial `VoiceCommand` component state. -/
def initVoiceCommand : VoiceCommandSt :=
  { status := .idle, isActive := false,
    pcRef := false, micStreamRef := false, dcRef := false }

/-- The protocol events dispatched by `handleRealtimeEvent` in
`VoiceChat.tsx`, one constructor per `case` of the `switch` on `event.type`;
optional payload fields are `Option String`. -/
inductive RealtimeEvent where
  | responseAudioTranscriptDelta
  | responseAudioTranscriptDone (transcript : Option String)
  | inputAudioTranscriptionCompleted (transcript : Option String)
  | responseAudioDelta
  | speechStarted
  | speechStopped
  | errorEvent (message : Option String)
  | unknown (ty : String)
deriving DecidableEq, Repr

/-- `addTranscript` of `VoiceChat.tsx`: append `{text, isUser, timestamp: new
Date()}` to the `transcript` array (`now` models the current time). -/
def addTranscript (now : Int) (text : String) (isUser : Bool)
    (s : VoiceChatSt) : VoiceChatSt :=
  { s with transcript := s.transcript ++ [⟨text, isUser, now⟩] }

/-- `handleRealtimeEvent` of `VoiceChat.tsx`: the `switch` on `event.type`.
Each `updateState(...)` call overwrites `state` unconditionally; the
`if (event.transcript)` truthiness guard excludes a missing or empty string. -/
def handleRealtimeEvent (now : Int) (ev : RealtimeEvent)
    (s : VoiceChatSt) : VoiceChatSt :=
  match ev with
  | .responseAudioTranscriptDelta => s
  | .responseAudioTranscriptDone tr =>
      let s1 := match tr with
        | some t => if t == "" then s else addTranscript now t false s
        | none => s
      { s1 with state := .listening }
  | .inputAudioTranscriptionCompleted tr =>
      match tr with
      | some t => if t == "" then s else addTranscript now t true s
      | none => s
  | .responseAudioDelta => { s with state := .speaking }
  | .speechStarted => { s with state := .listening }
  | .speechStopped => { s with state := .connected }
  | .errorEvent msg =>
      { s with state := .error, errorMsg := some (msg.getD "Unknown error") }
  | .unknown _ => s

/-- `dataChannel.onmessage` of `VoiceChat.tsx`: `JSON.parse` the frame inside
`try`; on success dispatch to `handleRealtimeEvent`; on a parse failure the
`catch` only logs and the frame is discarded. `parse` models `JSON.parse`
composed with the event decoding (`none` = invalid JSON). -/
def dataChannelOnMessage (parse : String → Option RealtimeEvent) (now : Int)
    (raw : String) (s : VoiceChatSt) : VoiceChatSt :=
  match parse raw with
  | some ev => handleRealtimeEvent now ev s
  | none => s

/-- Resource-release side effects, in the vocabulary of the two stop
functions: `dc.close()`, `pc.close()`, `track.stop()` on every local track,
and `audioElement.pause()` on the remote playback sink. -/
inductive ReleaseAct where
  | closeDataChannel
  | closePeerConnection
  | stopLocalTracks
  | pauseAudioOutput
deriving DecidableEq, Repr

/-- `stopVoiceChat` of `VoiceChat.tsx`: three null-guarded blocks in program
order — close `peerConnectionRef`, stop the `localStreamRef` tracks, pause
`audioOutputRef` — each nulling its ref, then `updateState('idle')`.  Note the
function never touches `dataChannelRef` and never calls `dc.close()`. -/
def stopVoiceChat (s : VoiceChatSt) : VoiceChatSt × List ReleaseAct :=
  let pcActs := if s.peerConnection then [ReleaseAct.closePeerConnection] else []
  let streamActs := if s.localStream then [ReleaseAct.stopLocalTracks] else []
  let audioActs := if s.audioOutput then [ReleaseAct.pauseAudioOutput] else []
  ({ s with peerConnection := false, localStream := false, audioOutput := false,
            state := .idle },
   pcActs ++ streamActs ++ audioActs)

/-- `stopVoice` of `VoiceCommand` (part_001): close `dcRef`, close `pcRef`,
stop the `micStreamRef` tracks — each block null-guarded and nulling its ref —
then `setStatus('idle')`, `setIsActive(false)`.  The `ai-audio` playback
element is never touched. -/
def stopVoice (s : VoiceCommandSt) : VoiceCommandSt × List ReleaseAct :=
  let dcActs := if s.dcRef then [ReleaseAct.closeDataChannel] else []
  let pcActs := if s.pcRef then [ReleaseAct.closePeerConnection] else []
  let micActs := if s.micStreamRef then [ReleaseAct.stopLocalTracks] else []
  ({ s with dcRef := false, pcRef := false, micStreamRef := false,
            status := .idle, isActive := false },
   dcActs ++ pcActs ++ micActs)

/-- The `session` object of the `session.update` message sent by
`VoiceCommand` on `dc.onopen` (part_001 lines 139-157). -/
structure SessionConfig where
  instructions : String
  voice : String
  input_audio_format : String
  output_audio_format : String
  transcription_model : String
  turn_detection_type : String
  turn_detection_threshold : ℚ
  turn_detection_silence_ms : Nat
deriving DecidableEq, Repr

/-- A message sent over the control channel by either client implementation:
`VoiceCommand` sends `{type: 'session.update', session: {...}}` with the full
configuration; `VoiceChat` sends `{type: 'session_update', session: {token}}`
carrying only the credential token. -/
inductive DCMessage where
  | sessionUpdate (session : SessionConfig)
  | sessionUpdateToken (token : String)
deriving DecidableEq, Repr

/-- The instructions field of a control message, when it has one. -/
def msgInstructions : DCMessage → Option String
  | .sessionUpdate c => some c.instructions
  | .sessionUpdateToken _ => none

/-- `dc.onopen` of `VoiceCommand` (part_001): send exactly one
`session.update` message with the credential instructions, voice `alloy`,
input/output format `pcm16`, transcription model `whisper-1` and the
`server_vad` turn detection (threshold 0.5, silence 500 ms). -/
def dcOnOpen (instructions : String) : List DCMessage :=
  [DCMessage.sessionUpdate
    { instructions := instructions
      voice := "alloy"
      input_audio_format := "pcm16"
      output_audio_format := "pcm16"
      transcription_model := "whisper-1"
      turn_detection_type := "server_vad"
      turn_detection_threshold := 1/2
      turn_detection_silence_ms := 500 }]

/-- `dataChannel.onopen` of `VoiceChat.tsx` (lines 111-118): send exactly one
`session_update` message whose `session` object holds only the token. -/
def dataChannelOnOpen (token : String) : List DCMessage :=
  [DCMessage.sessionUpdateToken token]

/-- The success body of `POST /api/rtc-token` (part_002): the fields of the
`res.json({...})` object. -/
structure RtcTokenOk where
  client_secret : String
  instructions : String
  sessionType : String
  userId : String
  scenarioId : Option String
  expiresAt : Int
deriving DecidableEq, Repr

/-- The request body of `POST /api/rtc-token`: `{userId, scenarioId,
sessionType}` with `userId` possibly absent (the handler rejects that). -/
structure RtcTokenRequest where
  userId : Option String
  scenarioId : Option String
  sessionType : String
deriving DecidableEq, Repr

/-- The three response shapes of the handler: 400, 500, or 200 with a body. -/
inductive RtcTokenResponse where
  | badRequest (error : String)
  | serverError (error : String)
  | ok (body : RtcTokenOk)
deriving DecidableEq, Repr

/-- The ECOS-simulation instructions string of the handler. -/
def patientInstructions : String :=
  "Vous êtes un patient virtuel dans une simulation ECOS. Répondez de manière réaliste selon le scénario clinique. Utilisez un ton naturel et conversationnel."

/-- The default (chat) instructions string of the handler. -/
def assistantInstructions : String :=
  "Vous êtes un assistant éducatif spécialisé en formation médicale. Répondez de manière claire et pédagogique."

/-- The `POST /api/rtc-token` handler (part_002 lines 936-972):
the guard `if (!userId)` rejects with 400 on a missing or falsy `userId`
(JavaScript truthiness: the empty string is falsy too); the guard
`if (!client_secret)` rejects with 500 on a missing or empty
`OPENAI_API_KEY`; otherwise answer with
`client_secret = process.env.OPENAI_API_KEY`, instructions chosen by
`sessionType`, and `expiresAt = Date.now() + 60 * 60 * 1000`. -/
def rtcTokenHandler (openaiApiKey : Option String) (now : Int)
    (req : RtcTokenRequest) : RtcTokenResponse :=
  match req.userId with
  | none => .badRequest "userId is required"
  | some uid =>
    if uid == "" then .badRequest "userId is required"
    else
      match openaiApiKey with
      | none => .serverError "OpenAI API key not configured"
      | some key =>
        if key == "" then .serverError "OpenAI API key not configured"
        else
          .ok { client_secret := key
                instructions :=
                  if req.sessionType == "ecos_simulation" then
                    patientInstructions
                  else assistantInstructions
                sessionType := req.sessionType
                userId := uid
                scenarioId := req.scenarioId
                expiresAt := now + 60 * 60 * 1000 }

/-- The secret carried by a credential response, when it succeeded. -/
def responseSecret : RtcTokenResponse → Option String
  | .ok b => some b.client_secret
  | _ => none

/-- The expiry carried by a credential response, when it succeeded. -/
def responseExpiresAt : RtcTokenResponse → Option Int
  | .ok b => some b.expiresAt
  | _ => none

/-- The operations performed by the two start flows, in program order. -/
inductive StartAct where
  | setStatusConnecting
  | fetchToken
  | getUserMedia
  | newPeerConnection
  | createDataChannel (ordered : Bool)
  | addTrack
  | createOffer
  | setLocalDescription
  | postOffer
  | setRemoteDescription
  | assignOnOpen
  | logOffer
  | setStatusConnected
  | setStatusError
deriving DecidableEq, Repr

/-- `startVoiceChat` of `VoiceChat.tsx` (lines 202-240), with the two fallible
steps as outcome parameters: `updateState('connecting')`, fetch the token
(throw if not ok), `initializeAudio` (throw if the microphone is refused),
`createPeerConnection` (creates the peer connection and one ordered data
channel), add the local tracks, create and apply the local offer, then only
`console.log` the offer (the exchange is simulated) and report `connected`.
Any throw lands in the `catch`: `updateState('error')`, `setError(...)`. -/
def startVoiceChat (tokenOk micOk : Bool) (s : VoiceChatSt) :
    VoiceChatSt × List StartAct :=
  if tokenOk then
    if micOk then
      ({ s with state := .connected, errorMsg := none,
                peerConnection := true, dataChannel := true,
                localStream := true },
       [.setStatusConnecting, .fetchToken, .getUserMedia, .newPeerConnection,
        .createDataChannel true, .addTrack, .createOffer,
        .setLocalDescription, .logOffer, .setStatusConnected])
    else
      ({ s with state := .error,
                errorMsg := some "Failed to access microphone" },
       [.setStatusConnecting, .fetchToken, .getUserMedia, .setStatusError])
  else
    ({ s with state := .error,
              errorMsg := some "Failed to get RTC token" },
     [.setStatusConnecting, .fetchToken, .setStatusError])

/-- The result of `startVoice` (part_001): the component state, the operation
trace, the messages the assigned `dc.onopen` handler will send (assigned only
after a successful SDP exchange), and the bearer credential used in the SDP
POST. -/
structure StartVoiceResult where
  st : VoiceCommandSt
  trace : List StartAct
  onOpen : Option (List DCMessage)
  bearer : Option String
deriving DecidableEq, Repr

/-- `startVoice` of `VoiceCommand` (part_001 lines 25-167), with the three
fallible steps as parameters (`fetch` is the decoded credential body, `none`
when the fetch was not ok): `setStatus('connecting')`, fetch the credential,
create the peer connection, create the `oai-events` data channel (WebRTC
default: ordered, reliable), `getUserMedia`, add the microphone tracks, create
and apply the local offer, POST it to the Realtime endpoint with the
`client_secret` bearer, apply the answer as remote description, assign
`dc.onopen`, and `setStatus('connected')`, `setIsActive(true)`.  A throw
lands in the `catch`: `setStatus('error')`, `setIsActive(false)` — with the
refs assigned so far left in place. -/
def startVoice (fetch : Option RtcTokenOk) (micOk sdpOk : Bool)
    (s : VoiceCommandSt) : StartVoiceResult :=
  match fetch with
  | none =>
      { st := { s with status := .error, isActive := false }
        trace := [.setStatusConnecting, .fetchToken, .setStatusError]
        onOpen := none
        bearer := none }
  | some tok =>
      if micOk then
        if sdpOk then
          { st := { s with status := .connected, isActive := true,
                           pcRef := true, dcRef := true,
                           micStreamRef := true }
            trace := [.setStatusConnecting, .fetchToken, .newPeerConnection,
                      .createDataChannel true, .getUserMedia, .addTrack,
                      .createOffer, .setLocalDescription, .postOffer,
                      .setRemoteDescription, .assignOnOpen,
                      .setStatusConnected]
            onOpen := some (dcOnOpen tok.instructions)
            bearer := some tok.client_secret }
        else
          { st := { s with status := .error, isActive := false,
                           pcRef := true, dcRef := true,
                           micStreamRef := true }
            trace := [.setStatusConnecting, .fetchToken, .newPeerConnection,
                      .createDataChannel true, .getUserMedia, .addTrack,
                      .createOffer, .setLocalDescription, .postOffer,
                      .setStatusError]
            onOpen := none
            bearer := some tok.client_secret }
      else
        { st := { s with status := .error, isActive := false,
                         pcRef := true, dcRef := true }
          trace := [.setStatusConnecting, .fetchToken, .newPeerConnection,
                    .createDataChannel true, .getUserMedia, .setStatusError]
          onOpen := none
          bearer := none }

/-- Substring test on strings (models `String.prototype.includes`). -/
def strContains (s pat : String) : Bool :=
  decide (pat.toList <:+: s.toList)

/-- A parsed control-channel message as read by `dc.onmessage` of
`VoiceCommand`: the `type` discriminator and the optional `transcript`,
`delta` and `text` payload fields. -/
structure RtMsg where
  type : String
  transcript : Option String
  delta : Option String
  text : Option String
deriving DecidableEq, Repr

/-- The transcript emissions (`onTranscript(text, isUser)` calls) performed by
the parsed-message branch of `dc.onmessage` in `VoiceCommand` (part_001
lines 58-102): the five independent `if` blocks in program order, each with
the JavaScript truthiness guard on its payload field. -/
def dcMessageEmits (msg : RtMsg) : List (String × Bool) :=
  (if msg.type == "conversation.item.input_audio_transcription.completed" then
     match msg.transcript with
     | some t => if t == "" then [] else [(t, true)]
     | none => []
   else []) ++
  (if msg.type == "input_audio_buffer.speech_started"
      || strContains msg.type "input_audio_transcription" then
     match msg.transcript with
     | some t => if t == "" then [] else [(t, true)]
     | none => []
   else []) ++
  (if msg.type == "response.text.delta"
      || msg.type == "response.output_text.delta" then
     match msg.delta with
     | some d => if d == "" then [] else [(d, false)]
     | none => []
   else []) ++
  (if msg.type == "response.text.done"
      || msg.type == "response.output_text.done" then
     match msg.text with
     | some x => if x == "" then [] else [(x, false)]
     | none => []
   else []) ++
  (if strContains msg.type "transcript" then
     match msg.transcript with
     | some t =>
         if t == "" then []
         else [(t, strContains msg.type "input" || strContains msg.type "user")]
     | none => []
   else [])

/-- `dc.onmessage` of `VoiceCommand` (part_001): `JSON.parse` inside `try`
(`parse`, with `none` = invalid JSON); on success run the transcript logic;
the `catch` of a parse failure only logs, emitting nothing and leaving the
channel open. -/
def dcOnMessage (parse : String → Option RtMsg) (raw : String) :
    List (String × Bool) :=
  match parse raw with
  | some msg => dcMessageEmits msg
  | none => []

/-- The message sender tag of `PatientSimulator` (part_000). -/
inductive Sender where
  | user
  | bot
deriving DecidableEq, Repr

/-- One `Message` of `PatientSimulator` (part_000): content, sender and
timestamp in milliseconds (`Date.getTime()`). -/
structure Message where
  content : String
  sender : Sender
  timestamp : Int
deriving DecidableEq, Repr

/-- The `isDuplicate` check of the `onTranscript` handler in
`PatientSimulator` (part_000 lines 323-333): some existing message has the
same content, the same sender, and
`Math.abs(msg.timestamp - message.timestamp) < 2000`. -/
def isDuplicate (prev : List Message) (m : Message) : Bool :=
  prev.any fun msg =>
    msg.content == m.content && msg.sender == m.sender
      && decide ((msg.timestamp - m.timestamp).natAbs < 2000)

/-- The `setMessages` updater of the `onTranscript` handler in
`PatientSimulator` (part_000 lines 314-337): keep the list unchanged when the
candidate is a duplicate, otherwise append it. -/
def onTranscriptAdd (prev : List Message) (m : Message) : List Message :=
  if isDuplicate prev m then prev else prev ++ [m]

/-- Modelled from the spec words (refinement comparison for the deduplication
rule): a candidate is discarded exactly when an existing entry has identical
text, identical speaker, and a timestamp strictly within 2000 ms of the
candidate. -/
def specDiscardsCandidate (log : List Message) (cand : Message) : Bool :=
  log.any fun e =>
    e.content == cand.content && e.sender == cand.sender
      && decide (|e.timestamp - cand.timestamp| < 2000)

/-- A `VoiceChat` state holding every resource (a fully established session). -/
def fullVoiceChat : VoiceChatSt :=
  { state := .connected, errorMsg := none, transcript := [],
    peerConnection := true, localStream := true,
    audioOutput := true, dataChannel := true }

/-- A `VoiceCommand` state holding every resource. -/
def fullVoiceCommand : VoiceCommandSt :=
  { status := .connected, isActive := true,
    pcRef := true, micStreamRef := true, dcRef := true }

/-- A start trace creates at most one control channel, and when an offer is
generated the channel creation is unique and precedes it. -/
@[reducible] def oneChannelBeforeOffer (tr : List StartAct) : Prop :=
  tr.count (StartAct.createDataChannel true) ≤ 1 ∧
  (StartAct.createOffer ∉ tr ∨
    (tr.count (StartAct.createDataChannel true) = 1 ∧
     tr.indexOf (StartAct.createDataChannel true) < tr.indexOf StartAct.createOffer))

/-- A start trace only reports `connected` after POSTing the offer and
applying the answer as the remote description, in that order. -/
@[reducible] def answerAppliedBeforeConnected (tr : List StartAct) : Prop :=
  StartAct.setStatusConnected ∉ tr ∨
    (tr.indexOf StartAct.postOffer < tr.indexOf StartAct.setRemoteDescription ∧
     tr.indexOf StartAct.setRemoteDescription < tr.indexOf StartAct.setStatusConnected ∧
     StartAct.postOffer ∈ tr ∧ StartAct.setRemoteDescription ∈ tr)

/-- An integer has absolute value below 2000 exactly when its `natAbs` is. -/
theorem natAbs_lt_2000_iff (a : Int) : (a.natAbs < 2000) ↔ (|a| < 2000) := by
  rw [Int.abs_eq_natAbs]
  exact_mod_cast Iff.rfl

/-- The `isDuplicate` check of `PatientSimulator` agrees pointwise with the
spec-worded discard predicate. -/
theorem isDuplicate_eq_spec (prev : List Message) (m : Message) :
    isDuplicate prev m = specDiscardsCandidate prev m := by
  unfold isDuplicate specDiscardsCandidate
  congr 1
  funext e
  congr 1
  exact decide_eq_decide.mpr (natAbs_lt_2000_iff _)

/-- The release trace of `stopVoice` as a function of the held refs. -/
theorem stopVoice_trace (s : VoiceCommandSt) :
    (stopVoice s).2 =
      (if s.dcRef then [ReleaseAct.closeDataChannel] else []) ++
      (if s.pcRef then [ReleaseAct.closePeerConnection] else []) ++
      (if s.micStreamRef then [ReleaseAct.stopLocalTracks] else []) := rfl

/-- The release trace of `stopVoiceChat` as a function of the held refs. -/
theorem stopVoiceChat_trace (s : VoiceChatSt) :
    (stopVoiceChat s).2 =
      (if s.peerConnection then [ReleaseAct.closePeerConnection] else []) ++
      (if s.localStream then [ReleaseAct.stopLocalTracks] else []) ++
      (if s.audioOutput then [ReleaseAct.pauseAudioOutput] else []) := rfl

/-- The operation trace of `startVoice` on a successful credential fetch,
which does not depend on the fetched credential values. -/
theorem startVoice_some_trace (tok : RtcTokenOk) (micOk sdpOk : Bool)
    (s : VoiceCommandSt) :
    (startVoice (some tok) micOk sdpOk s).trace =
      (if micOk then
         if sdpOk then
           [StartAct.setStatusConnecting, StartAct.fetchToken,
            StartAct.newPeerConnection, StartAct.createDataChannel true,
            StartAct.getUserMedia, StartAct.addTrack, StartAct.createOffer,
            StartAct.setLocalDescription, StartAct.postOffer,
            StartAct.setRemoteDescription, StartAct.assignOnOpen,
            StartAct.setStatusConnected]
         else
           [StartAct.setStatusConnecting, StartAct.fetchToken,
            StartAct.newPeerConnection, StartAct.createDataChannel true,
            StartAct.getUserMedia, StartAct.addTrack, StartAct.createOffer,
            StartAct.setLocalDescription, StartAct.postOffer,
            StartAct.setStatusError]
       else
         [StartAct.setStatusConnecting, StartAct.fetchToken,
          StartAct.newPeerConnection, StartAct.createDataChannel true,
          StartAct.getUserMedia, StartAct.setStatusError]) := by
  cases micOk <;> cases sdpOk <;> rfl

/-- C4: the transcript deduplication rule discards a candidate exactly when an
existing entry has identical text, identical speaker, and a timestamp strictly
within 2000 ms; admitting ("Bonjour", user, t) then ("Bonjour", user, t+500ms)
yields one entry, while ("Bonjour", user, t) then ("Bonjour", user, t+5000ms)
yields two. -/
theorem c4_dedup_rule :
    (∀ (prev : List Message) (m : Message),
       onTranscriptAdd prev m =
         if specDiscardsCandidate prev m then prev else prev ++ [m]) ∧
    onTranscriptAdd (onTranscriptAdd [] ⟨"Bonjour", Sender.user, 0⟩)
        ⟨"Bonjour", Sender.user, 500⟩ = [⟨"Bonjour", Sender.user, 0⟩] ∧
    onTranscriptAdd (onTranscriptAdd [] ⟨"Bonjour", Sender.user, 0⟩)
        ⟨"Bonjour", Sender.user, 5000⟩ =
      [⟨"Bonjour", Sender.user, 0⟩, ⟨"Bonjour", Sender.user, 5000⟩] := by
  refine ⟨fun prev m => ?_, by decide, by decide⟩
  unfold onTranscriptAdd
  rw [isDuplicate_eq_spec]

/-- C5: a control-channel frame that is not valid JSON is discarded by both
implementations: the `VoiceChat` component state (session state, transcript,
channel flag) is unchanged, and the `VoiceCommand` handler emits no
transcript. -/
theorem c5_malformed_discarded :
    (∀ (parse : String → Option RealtimeEvent) (now : Int) (raw : String)
       (s : VoiceChatSt),
       parse raw = none → dataChannelOnMessage parse now raw s = s) ∧
    (∀ (parse : String → Option RtMsg) (raw : String),
       parse raw = none → dcOnMessage parse raw = []) := by
  constructor
  · intro parse now raw s h
    simp [dataChannelOnMessage, h]
  · intro parse raw h
    simp [dcOnMessage, h]

/-- C5 witness: a concrete failing parse on a concrete frame and state. -/
theorem c5_witness :
    ((fun _ : String => (none : Option RealtimeEvent)) "oops" = none) ∧
    dataChannelOnMessage (fun _ => none) 0 "oops" initVoiceChat = initVoiceChat ∧
    ((fun _ : String => (none : Option RtMsg)) "oops" = none) ∧
    dcOnMessage (fun _ => none) "oops" = [] :=
  ⟨rfl, c5_malformed_discarded.1 (fun _ => none) 0 "oops" initVoiceChat rfl,
   rfl, c5_malformed_discarded.2 (fun _ => none) "oops" rfl⟩

/-- C9: `handleRealtimeEvent` sets the session state unconditionally on the
event type — from every current state (idle, connecting and error included),
`input_audio_buffer.speech_started` yields `listening`,
`input_audio_buffer.speech_stopped` yields `connected`, and
`response.audio.delta` yields `speaking`. -/
theorem c9_unconditional_transitions :
    ∀ (now : Int) (s : VoiceChatSt),
      (handleRealtimeEvent now RealtimeEvent.speechStarted s).state =
        VoiceChatState.listening ∧
      (handleRealtimeEvent now RealtimeEvent.speechStopped s).state =
        VoiceChatState.connected ∧
      (handleRealtimeEvent now RealtimeEvent.responseAudioDelta s).state =
        VoiceChatState.speaking :=
  fun _ _ => ⟨rfl, rfl, rfl⟩

/-- C1 counterexample: starting from idle with the microphone unavailable,
`startVoiceChat` leaves the session state at `error`, not at `idle` as the
claim states. -/
theorem c1_counterexample :
    (startVoiceChat true false initVoiceChat).1.state = VoiceChatState.error ∧
    (startVoiceChat true false initVoiceChat).1.state ≠ VoiceChatState.idle := by
  decide

/-- C1 (amended): starting with no available microphone surfaces the failure
as an error message, transitions the session state to `error` (not `idle`),
and creates no transport: the peer-connection ref stays empty and neither a
peer connection nor a data channel is ever constructed. -/
theorem c1_mic_denied :
    (startVoiceChat true false initVoiceChat).1.state = VoiceChatState.error ∧
    (startVoiceChat true false initVoiceChat).1.errorMsg.isSome = true ∧
    (startVoiceChat true false initVoiceChat).1.peerConnection = false ∧
    (startVoiceChat true false initVoiceChat).1.dataChannel = false ∧
    (startVoiceChat true false initVoiceChat).1.localStream = false ∧
    StartAct.newPeerConnection ∉ (startVoiceChat true false initVoiceChat).2 ∧
    StartAct.createDataChannel true ∉ (startVoiceChat true false initVoiceChat).2 := by
  decide

/-- C2 counterexample: the `VoiceChat` implementation sends, on channel open,
a single session-control message that carries only the credential token — in
particular it carries no instructions (nor formats, model or VAD policy). -/
theorem c2_counterexample :
    dataChannelOnOpen "tok" = [DCMessage.sessionUpdateToken "tok"] ∧
    msgInstructions (DCMessage.sessionUpdateToken "tok") = none := by
  decide

/-- C2 (amended): on channel open each implementation sends exactly one
session-control message; the `VoiceCommand` message carries the credential
instructions, the pcm16 input and output formats, the whisper-1 transcription
model and the server VAD policy (threshold 0.5, 500 ms silence), while the
`VoiceChat` message carries only the credential token and no instructions. -/
theorem c2_session_update :
    ∀ instructions token : String,
      dcOnOpen instructions =
        [DCMessage.sessionUpdate
          { instructions := instructions
            voice := "alloy"
            input_audio_format := "pcm16"
            output_audio_format := "pcm16"
            transcription_model := "whisper-1"
            turn_detection_type := "server_vad"
            turn_detection_threshold := 1/2
            turn_detection_silence_ms := 500 }] ∧
      (dcOnOpen instructions).length = 1 ∧
      dataChannelOnOpen token = [DCMessage.sessionUpdateToken token] ∧
      (dataChannelOnOpen token).length = 1 ∧
      msgInstructions (DCMessage.sessionUpdateToken token) = none :=
  fun _ _ => ⟨rfl, rfl, rfl, rfl, rfl⟩

/-- C3 counterexample: on a fully established session neither stop routine
performs the claimed four-step order — `stopVoiceChat` never closes the
control channel, and `stopVoice` never releases the playback sink. -/
theorem c3_counterexample :
    (stopVoiceChat fullVoiceChat).2 =
      [ReleaseAct.closePeerConnection, ReleaseAct.stopLocalTracks,
       ReleaseAct.pauseAudioOutput] ∧
    ReleaseAct.closeDataChannel ∉ (stopVoiceChat fullVoiceChat).2 ∧
    (stopVoice fullVoiceCommand).2 =
      [ReleaseAct.closeDataChannel, ReleaseAct.closePeerConnection,
       ReleaseAct.stopLocalTracks] ∧
    ReleaseAct.pauseAudioOutput ∉ (stopVoice fullVoiceCommand).2 := by
  decide

/-- C3 (amended): `stopVoice` releases, in order, the control channel, the
transport and the local tracks (never the playback sink), while
`stopVoiceChat` releases, in order, the transport, the local tracks and the
playback sink (never explicitly the control channel); each is safe to invoke
from any state and always lands in `idle`. -/
theorem c3_stop_order :
    (∀ s : VoiceCommandSt,
       List.Sublist (stopVoice s).2
         [ReleaseAct.closeDataChannel, ReleaseAct.closePeerConnection,
          ReleaseAct.stopLocalTracks] ∧
       ReleaseAct.pauseAudioOutput ∉ (stopVoice s).2 ∧
       (stopVoice s).1.status = VoiceStatus.idle) ∧
    (∀ s : VoiceChatSt,
       List.Sublist (stopVoiceChat s).2
         [ReleaseAct.closePeerConnection, ReleaseAct.stopLocalTracks,
          ReleaseAct.pauseAudioOutput] ∧
       ReleaseAct.closeDataChannel ∉ (stopVoiceChat s).2 ∧
       (stopVoiceChat s).1.state = VoiceChatState.idle) := by
  constructor
  · intro s
    refine ⟨?_, ?_, rfl⟩ <;>
      (rw [stopVoice_trace]
       rcases s with ⟨st, act, pc, mic, dc⟩
       cases dc <;> cases pc <;> cases mic <;> simp)
  · intro s
    refine ⟨?_, ?_, rfl⟩ <;>
      (rw [stopVoiceChat_trace]
       rcases s with ⟨st, err, tr, pc, ls, ao, dc⟩
       cases pc <;> cases ls <;> cases ao <;> simp)

/-- C6: both stop routines are idempotent — from every starting state the
first call already lands in `idle`, a second call changes nothing, performs no
release action at all, and the first call's release actions are free of
duplicates. -/
theorem c6_stop_idempotent :
    (∀ s : VoiceChatSt,
       (stopVoiceChat s).1.state = VoiceChatState.idle ∧
       (stopVoiceChat (stopVoiceChat s).1).1 = (stopVoiceChat s).1 ∧
       (stopVoiceChat (stopVoiceChat s).1).2 = [] ∧
       List.Nodup (stopVoiceChat s).2) ∧
    (∀ s : VoiceCommandSt,
       (stopVoice s).1.status = VoiceStatus.idle ∧
       (stopVoice (stopVoice s).1).1 = (stopVoice s).1 ∧
       (stopVoice (stopVoice s).1).2 = [] ∧
       List.Nodup (stopVoice s).2) := by
  constructor
  · intro s
    refine ⟨rfl, rfl, rfl, ?_⟩
    rw [stopVoiceChat_trace]
    rcases s with ⟨st, err, tr, pc, ls, ao, dc⟩
    cases pc <;> cases ls <;> cases ao <;> simp
  · intro s
    refine ⟨rfl, rfl, rfl, ?_⟩
    rw [stopVoice_trace]
    rcases s with ⟨st, act, pc, mic, dc⟩
    cases dc <;> cases pc <;> cases mic <;> simp

/-- C7: in every outcome of either start flow, at most one control channel is
created, and whenever an offer is generated exactly one ordered channel was
created before it. -/
theorem c7_channel_before_offer :
    ∀ (tokenOk micOk sdpOk : Bool) (fetch : Option RtcTokenOk),
      oneChannelBeforeOffer (startVoiceChat tokenOk micOk initVoiceChat).2 ∧
      oneChannelBeforeOffer
        (startVoice fetch micOk sdpOk initVoiceCommand).trace := by
  intro tokenOk micOk sdpOk fetch
  constructor
  · cases tokenOk <;> cases micOk <;> decide
  · cases fetch with
    | none => cases micOk <;> cases sdpOk <;> decide
    | some tok =>
        rw [startVoice_some_trace]
        cases micOk <;> cases sdpOk <;> simp <;> decide

/-- C8 counterexample: the `VoiceChat` start flow reports `connected` without
ever POSTing its offer or applying a remote description — the exchange is
simulated. -/
theorem c8_counterexample :
    StartAct.setStatusConnected ∈ (startVoiceChat true true initVoiceChat).2 ∧
    StartAct.postOffer ∉ (startVoiceChat true true initVoiceChat).2 ∧
    StartAct.setRemoteDescription ∉ (startVoiceChat true true initVoiceChat).2 := by
  decide

/-- C8 (amended): in `VoiceCommand` every path that reports `connected` first
POSTs the local offer and then applies the returned answer as the remote
description, in that order; in `VoiceChat` the exchange is simulated — the
successful path only logs the offer before reporting `connected`, with no
remote description ever applied. -/
theorem c8_answer_before_connected :
    (∀ (fetch : Option RtcTokenOk) (micOk sdpOk : Bool),
       answerAppliedBeforeConnected
         (startVoice fetch micOk sdpOk initVoiceCommand).trace) ∧
    ((startVoiceChat true true initVoiceChat).2 =
       [StartAct.setStatusConnecting, StartAct.fetchToken,
        StartAct.getUserMedia, StartAct.newPeerConnection,
        StartAct.createDataChannel true, StartAct.addTrack,
        StartAct.createOffer, StartAct.setLocalDescription,
        StartAct.logOffer, StartAct.setStatusConnected] ∧
     StartAct.setRemoteDescription ∉ (startVoiceChat true true initVoiceChat).2) := by
  constructor
  · intro fetch micOk sdpOk
    cases fetch with
    | none => cases micOk <;> cases sdpOk <;> decide
    | some tok =>
        rw [startVoice_some_trace]
        cases micOk <;> cases sdpOk <;> simp <;> decide
  · exact ⟨rfl, by decide⟩

/-- C10: for every two valid credential requests (truthy userId, configured
non-empty key) the endpoint returns the same secret — the process-wide API
key, whatever the request fields — with an expiry exactly one hour after the
request time; and the consuming client is insensitive to the expiry field,
which is never checked on later use. -/
theorem c10_shared_secret :
    (∀ (key : String) (now1 now2 : Int) (r1 r2 : RtcTokenRequest)
       (u1 u2 : String),
       key ≠ "" → u1 ≠ "" → u2 ≠ "" →
       r1.userId = some u1 → r2.userId = some u2 →
       responseSecret (rtcTokenHandler (some key) now1 r1) = some key ∧
       responseSecret (rtcTokenHandler (some key) now1 r1) =
         responseSecret (rtcTokenHandler (some key) now2 r2) ∧
       responseExpiresAt (rtcTokenHandler (some key) now1 r1) =
         some (now1 + 60 * 60 * 1000)) ∧
    (∀ (tok : RtcTokenOk) (e : Int) (micOk sdpOk : Bool) (s : VoiceCommandSt),
       startVoice (some { tok with expiresAt := e }) micOk sdpOk s =
         startVoice (some tok) micOk sdpOk s) := by
  constructor
  · intro key now1 now2 r1 r2 u1 u2 hk hu1 hu2 h1 h2
    simp [rtcTokenHandler, h1, h2, hk, hu1, hu2, responseSecret,
      responseExpiresAt]
  · intro tok e micOk sdpOk s
    rfl

/-- C10 witness: two concrete requests with different (non-empty) users,
scenario ids, session types and request times receive the same non-empty
secret, with a one-hour expiry. -/
theorem c10_witness :
    ("sk-test" ≠ "") ∧ ("alice" ≠ "") ∧ ("bob" ≠ "") ∧
    ((⟨some "alice", none, "chat"⟩ : RtcTokenRequest).userId = some "alice") ∧
    ((⟨some "bob", some "sc1", "ecos_simulation"⟩ : RtcTokenRequest).userId =
      some "bob") ∧
    (responseSecret
        (rtcTokenHandler (some "sk-test") 0 ⟨some "alice", none, "chat"⟩) =
      some "sk-test" ∧
     responseSecret
        (rtcTokenHandler (some "sk-test") 0 ⟨some "alice", none, "chat"⟩) =
       responseSecret
        (rtcTokenHandler (some "sk-test") 5
          ⟨some "bob", some "sc1", "ecos_simulation"⟩) ∧
     responseExpiresAt
        (rtcTokenHandler (some "sk-test") 0 ⟨some "alice", none, "chat"⟩) =
      some (0 + 60 * 60 * 1000)) :=
  ⟨by decide, by decide, by decide, rfl, rfl,
   c10_shared_secret.1 "sk-test" 0 5 ⟨some "alice", none, "chat"⟩
     ⟨some "bob", some "sc1", "ecos_simulation"⟩ "alice" "bob"
     (by decide) (by decide) (by decide) rfl rfl⟩

end ECOS
